import Mathlib

/-!
# Verification of the document ingestion and embedding pipeline

Shallow embedding of the ingestion/embedding pipeline of this repository:

* the batching/dispatch helper `processBatchEmbeddings`
  (`src/unnamed/part_001`, lines 304-385, identical to
  `src/app/api/retrieval/process/route.ts` lines 202-283),
* the route handler `POST` of `src/unnamed/part_001`,
* the PDF chunker `processPdf` (`src/lib/retrieval/processing/pdf.ts`),
* the client retry driver `processFileInBackground`
  (`src/db/files.ts`, lines 141-269).

Conventions: machine numbers are `Nat` (all quantities involved are
non-negative counters and never overflow the JS safe-integer range in the
regimes the code checks), fallible steps return `Except String` carrying the
thrown `Error` message, external collaborators (database, storage, embedding
provider, tokenizer) are explicit parameters, and the database rows touched by
the handler are threaded as explicit state.
-/

namespace Ingest

/-! ## Constants (src/lib/retrieval/processing/index.ts) -/

def CHUNK_SIZE : Nat := 2000

def CHUNK_OVERLAP : Nat := 200

def MAX_TOKENS_PER_REQUEST : Nat := 300000

def MAX_BATCH_TOKENS : Nat := 250000

/-- Constant `BATCH_SIZE = 50` from `src/unnamed/part_001`, line 185. -/
def BATCH_SIZE : Nat := 50

/-- Contiguous-occurrence test on character lists. -/
def listContains : List Char → List Char → Bool
  | hay, needle =>
    needle.isPrefixOf hay ||
      match hay with
      | [] => false
      | _ :: t => listContains t needle

/-- JavaScript `String.prototype.includes`: `sub` occurs inside `s`
(contiguously).  Stated on the underlying character lists so that it
evaluates inside the kernel. -/
def jsIncludes (s sub : String) : Bool :=
  listContains s.toList sub.toList

/-- JavaScript `String.prototype.split(sep)` for a one-character separator,
on character lists (split always yields at least one part, so `pop()` is
defined). -/
def splitChar (sep : Char) : List Char → List (List Char)
  | [] => [[]]
  | ch :: rest =>
    let r := splitChar sep rest
    if ch = sep then [] :: r
    else
      match r with
      | a :: t => (ch :: a) :: t
      | [] => [[ch]]

/-- Extension extraction `name.split(".").pop()?.toLowerCase()` (line 158; `Char.toLower` is the
ASCII case fold, which covers every extension the handler compares
against). -/
def extensionOf (name : String) : String :=
  String.mk (((splitChar (Char.ofNat 46) name.toList).getLastD []).map Char.toLower)

/-- A chunk as produced by the format extractors (`FileItemChunk` of
`@/types`): text content plus its token count. -/
structure FileItemChunk where
  content : String
  tokens : Nat
deriving Repr, DecidableEq

/-! ## Embedding dispatcher: `processBatchEmbeddings`
(src/unnamed/part_001, lines 304-385)

The provider is abstracted by `embed : String → E`: per the provider contract
(one embedding per input, positionally), a successful
`client.embeddings.create` call on inputs `l` returns `l.map embed`.  The
state mirrors the four local variables of the `"openai"` branch; in addition
`sent` records every sub-batch passed to `client.embeddings.create`, in order
(the sub-batch is kept as chunks; the code sends their `content` strings).
A provider-call failure aborts the whole job (it is modelled at the handler
level, not here). -/

structure SubBatchState (E : Type) where
  batchEmbeddings : List (Option E)
  currentSubBatch : List FileItemChunk
  currentSubBatchTokens : Nat
  skippedChunks : Nat
  sent : List (List FileItemChunk)
deriving Repr, DecidableEq

def initSubBatchState (E : Type) : SubBatchState E :=
  ⟨[], [], 0, 0, []⟩

/-- The `for` loop of the `"openai"` branch (lines 316-349). -/
def subBatchLoop (embed : String → E) :
    List FileItemChunk → SubBatchState E → SubBatchState E
  | [], st => st
  | c :: rest, st =>
    if c.tokens > MAX_TOKENS_PER_REQUEST then
      -- skip: push null immediately, leave the open sub-batch untouched
      subBatchLoop embed rest
        { st with
          batchEmbeddings := st.batchEmbeddings ++ [none]
          skippedChunks := st.skippedChunks + 1 }
    else if st.currentSubBatchTokens + c.tokens > MAX_BATCH_TOKENS ∧
        st.currentSubBatch ≠ [] then
      -- flush the open sub-batch, then start a new one with just this chunk
      subBatchLoop embed rest
        { batchEmbeddings :=
            st.batchEmbeddings ++ st.currentSubBatch.map (fun d => some (embed d.content))
          currentSubBatch := [c]
          currentSubBatchTokens := c.tokens
          skippedChunks := st.skippedChunks
          sent := st.sent ++ [st.currentSubBatch] }
    else
      subBatchLoop embed rest
        { st with
          currentSubBatch := st.currentSubBatch ++ [c]
          currentSubBatchTokens := st.currentSubBatchTokens + c.tokens }

/-- Trailing flush (lines 352-361). -/
def flushTrailing (embed : String → E) (st : SubBatchState E) :
    List (Option E) × List (List FileItemChunk) :=
  if st.currentSubBatch ≠ [] then
    (st.batchEmbeddings ++ st.currentSubBatch.map (fun d => some (embed d.content)),
      st.sent ++ [st.currentSubBatch])
  else
    (st.batchEmbeddings, st.sent)

/-- Function `processBatchEmbeddings(batchChunks, "openai", client)`: the returned
embedding array (`none` = the `null` pushed for a skipped chunk) together with
the list of sub-batches sent to the provider. -/
def processBatchEmbeddingsOpenai (embed : String → E)
    (batchChunks : List FileItemChunk) :
    List (Option E) × List (List FileItemChunk) :=
  flushTrailing embed (subBatchLoop embed batchChunks (initSubBatchState E))

/-- Function `processBatchEmbeddings(batchChunks, "local", client)`: one independent
`generateLocalEmbedding` call per chunk, a per-chunk failure is caught and
mapped to `null` (lines 370-381).  `localEmbed` returns `none` exactly when
the call for that content throws. -/
def processBatchEmbeddingsLocal (localEmbed : String → Option E)
    (batchChunks : List FileItemChunk) : List (Option E) :=
  batchChunks.map (fun c => localEmbed c.content)

/-- Summed token count of a sub-batch. -/
def subBatchTokens (b : List FileItemChunk) : Nat :=
  (b.map (fun c => c.tokens)).sum

/-! ## The ingestion job entry point: `POST` (src/unnamed/part_001)

State and environment.  The handler touches exactly one `files` row (the one
with id `file_id`) and the `file_items` rows of that file, so the database
state is that row (`none` = no such row, which makes the `.single()` select
fail) plus the chunk-row list.  Timestamps (`new Date().toISOString()`) are
abstract `Nat` clock readings supplied by the environment.  Everything the
handler consults outside that state — caller profile, form data, API keys,
storage download, blob decoding, the extractors, the embedding provider —
is an `Env` field.  The in-process `setTimeout` watchdog (lines 25-28) only
throws inside its own callback, outside this request's control flow, and is
not part of the model; an attempt abandoned by the caller is visible here
only as an error whose message the `catch` block classifies. -/

/-- Enum `files.processing_status` (migration in src/unnamed/part_000). -/
inductive ProcStatus where
  | pending
  | processing
  | completed
  | failed
  | timeout
deriving Repr, DecidableEq

/-- The `files` row fields the handler reads or writes. -/
structure FileRow where
  user_id : String
  name : String
  size : Nat
  tokens : Option Nat
  processing_status : ProcStatus
  processing_error : Option String
  processing_started_at : Option Nat
  processing_completed_at : Option Nat
deriving Repr, DecidableEq

/-- A `file_items` row as built at lines 269-282. -/
structure FileItemRow (E : Type) where
  file_id : String
  user_id : String
  content : String
  tokens : Nat
  openai_embedding : Option E
  local_embedding : Option E
deriving Repr, DecidableEq

structure DbState (E : Type) where
  file : Option FileRow
  fileItems : List (FileItemRow E)
deriving Repr, DecidableEq

/-- External inputs and collaborator behaviour for one invocation.
`extract ext` is the outcome of running the extractor selected for a
supported extension `ext` on the downloaded blob (`.error m` = it threw
`m`).  `openaiCallError = some m` models a remote embedding call throwing
`m` (which aborts the job); `refetchFormDataOk` is whether the second
`req.formData()` inside the `catch` block succeeds. -/
structure Env (E : Type) where
  profile_user_id : String
  use_azure_openai : Bool
  azureKeyPresent : Bool
  openaiKeyPresent : Bool
  checkApiKeyMsg : String
  metadataErrMsg : String
  file_id : Option String
  embeddingsProvider : Option String
  downloadError : Option String
  blobReadError : Option String
  bufferLen : Nat
  extract : String → Except String (List FileItemChunk)
  embed : String → E
  localEmbed : String → Option E
  openaiCallError : Option String
  refetchFormDataOk : Bool
  nowStart : Nat
  nowComplete : Nat
  nowFail : Nat

/-- JavaScript truthiness of a nullable form-data string. -/
def truthy : Option String → Bool
  | none => false
  | some s => s ≠ ""

structure Stats where
  totalChunks : Nat
  totalTokens : Nat
  batchesProcessed : Nat
deriving Repr, DecidableEq

structure HttpResponse where
  status : Nat
  message : String
  stats : Option Stats
deriving Repr, DecidableEq

/-- Result of one invocation: the HTTP response, the final database state,
and the contents of every embedding-provider call made (sub-batch inputs for
`"openai"`, one singleton per chunk for `"local"`). -/
structure RunResult (E : Type) where
  response : HttpResponse
  db : DbState E
  calls : List (List String)
deriving Repr, DecidableEq

/-- Outcome of the admission phase (lines 37-113): everything before the
`processing_status := "processing"` write. -/
inductive Admission where
  | alreadyProcessed
  | reject (msg : String)
  | proceed (fid provider : String) (row : FileRow)
deriving Repr, DecidableEq

/-- Lines 37-113 of the handler, in source order: parameter presence,
provider validity, metadata fetch, ownership, the 200 MB size ceiling, the
existing-chunks idempotency guard, the concurrent-`processing` guard. -/
def checkAdmission (env : Env E) (db : DbState E) : Admission :=
  if ¬ truthy env.file_id ∨ ¬ truthy env.embeddingsProvider then
    .reject "Missing required parameters: file_id and embeddingsProvider"
  else if ¬ (env.embeddingsProvider = some "openai" ∨
      env.embeddingsProvider = some "local") then
    .reject "Invalid embeddings provider. Must be 'openai' or 'local'"
  else
    match db.file with
    | none => .reject ("Failed to retrieve file metadata: " ++ env.metadataErrMsg)
    | some row =>
      if row.user_id ≠ env.profile_user_id then
        .reject "Unauthorized: File belongs to different user"
      else if row.size > 200 * 1024 * 1024 then
        .reject "File too large: Maximum size is 200MB"
      else if 0 < db.fileItems.length then
        .alreadyProcessed
      else if row.processing_status = .processing then
        .reject "File is currently being processed by another request"
      else
        .proceed (env.file_id.getD "") (env.embeddingsProvider.getD "") row

/-- Lines 116-123: the sole write that claims the job. -/
def markProcessingRow (env : Env E) (row : FileRow) : FileRow :=
  { row with
    processing_status := .processing
    processing_started_at := some env.nowStart
    processing_error := none }

/-- Lines 391-399: success finalize. -/
def finalizeSuccessRow (env : Env E) (totalTokens : Nat) (row : FileRow) : FileRow :=
  { row with
    tokens := some totalTokens
    processing_status := .completed
    processing_completed_at := some env.nowComplete
    processing_error := none }

/-- Lines 453-464: failure finalize applied to the row. -/
def failRow (env : Env E) (m : String) (row : FileRow) : FileRow :=
  { row with
    processing_status := if jsIncludes m "timeout" then .timeout else .failed
    processing_completed_at := some env.nowFail
    processing_error := some (if m = "" then "Unknown error" else m) }

/-- Lines 473-516: error categorization of the `catch` block, returning
(status code, user-facing message). -/
def categorize (m : String) : Nat × String :=
  if jsIncludes m "timeout" then
    (408, "Processing timed out. The file is too large or complex for processing.")
  else if jsIncludes m "too large" ∨ jsIncludes m "size" then
    (413, "File is too large for processing. Please try a smaller file.")
  else if jsIncludes m "unauthorized" ∨ jsIncludes m "Unauthorized" then
    (403, "Unauthorized access to file.")
  else if jsIncludes m "not found" ∨ jsIncludes m "File not found" then
    (404, "File not found. It may have been deleted.")
  else if jsIncludes m "token" ∨ jsIncludes m "limit" then
    (413, "File exceeds processing limits. Please try a smaller file.")
  else if jsIncludes m "network" ∨ jsIncludes m "connection" then
    (503, "Network error during processing. Please try again.")
  else
    (500, if m = "" then "An unexpected error occurred during file processing" else m)

/-- The whole `catch` block (lines 430-531): best-effort failure finalize
(skipped when the form-data re-read fails or `file_id` is not truthy; the
update itself targets the row by id, so it is a no-op when the row is
absent), then the categorized error response. -/
def handleCatch (env : Env E) (m : String) (db : DbState E)
    (calls : List (List String)) : RunResult E :=
  { response := { status := (categorize m).1, message := (categorize m).2, stats := none }
    db :=
      if env.refetchFormDataOk ∧ truthy env.file_id then
        { db with file := db.file.map (failRow env m) }
      else db
    calls := calls }

/-- The `chunks.slice(i, i + BATCH_SIZE)` slicing of the per-50 loop
(lines 243-297). -/
def sliceBatches (l : List FileItemChunk) : List (List FileItemChunk) :=
  if h : l = [] then []
  else l.take BATCH_SIZE :: sliceBatches (l.drop BATCH_SIZE)
termination_by l.length
decreasing_by
  simp only [List.length_drop, BATCH_SIZE]
  have : 0 < l.length := List.length_pos.mpr h
  omega

/-- Lines 269-282: the rows upserted for one slice; `batchEmbeddings[index]
|| null` is `embs.getD index none` (out-of-range reads give `undefined`,
hence `null`). -/
def mkFileItems (fid uid provider : String) (slice : List FileItemChunk)
    (embs : List (Option E)) : List (FileItemRow E) :=
  slice.enum.map fun p =>
    { file_id := fid
      user_id := uid
      content := p.2.content
      tokens := p.2.tokens
      openai_embedding := if provider = "openai" then embs.getD p.1 none else none
      local_embedding := if provider = "local" then embs.getD p.1 none else none }

/-- The per-50-chunk loop body (lines 243-297): embed the slice, append the
rows (`upsert` on a file with no pre-existing chunk rows is an insert), record
the provider calls. -/
def batchLoop (env : Env E) (fid provider : String) :
    List (List FileItemChunk) → DbState E → List (List String) →
    DbState E × List (List String)
  | [], db, calls => (db, calls)
  | slice :: rest, db, calls =>
    if provider = "openai" then
      let r := processBatchEmbeddingsOpenai env.embed slice
      batchLoop env fid provider rest
        { db with fileItems := db.fileItems ++ mkFileItems fid env.profile_user_id provider slice r.1 }
        (calls ++ r.2.map (fun b => b.map (fun c => c.content)))
    else
      let embs := processBatchEmbeddingsLocal env.localEmbed slice
      batchLoop env fid provider rest
        { db with fileItems := db.fileItems ++ mkFileItems fid env.profile_user_id provider slice embs }
        (calls ++ slice.map (fun c => [c.content]))

/-- Lines 125-301 and 388: everything between the `processing` mark and the
success finalize — download, blob decode, emptiness check, extension
extraction, API-key check, `processFileInBatches` (extractor dispatch,
zero-chunk check, the batch loop).  Returns `(totalChunks, totalTokens)` on
success.  A remote provider-call failure is modelled as aborting before the
batch loop. -/
def runBody (env : Env E) (provider : String) (fid : String) (row : FileRow)
    (db : DbState E) :
    Except String (Nat × Nat) × DbState E × List (List String) :=
  match env.downloadError with
  | some m => (.error ("Failed to retrieve file from storage: " ++ m), db, [])
  | none =>
  match env.blobReadError with
  | some m => (.error ("Failed to read file data: " ++ m), db, [])
  | none =>
  if env.bufferLen = 0 then (.error "File is empty", db, [])
  else if extensionOf row.name = "" then (.error "File has no extension", db, [])
  else if provider = "openai" ∧
      (if env.use_azure_openai then ¬ env.azureKeyPresent else ¬ env.openaiKeyPresent) then
    (.error (env.checkApiKeyMsg ++ ", make sure it is configured or else use local embeddings"),
      db, [])
  else if ¬ (extensionOf row.name ∈ ["csv", "json", "md", "pdf", "txt"]) then
    (.error "Unsupported file type", db, [])
  else
    match env.extract (extensionOf row.name) with
    | .error m => (.error m, db, [])
    | .ok chunks =>
      if chunks = [] then
        (.error "File could not be processed or is empty", db, [])
      else
        match env.openaiCallError with
        | some m =>
          if provider = "openai" then (.error m, db, [])
          else
            (.ok (chunks.length, (chunks.map (fun c => c.tokens)).sum),
              (batchLoop env fid provider (sliceBatches chunks) db []).1,
              (batchLoop env fid provider (sliceBatches chunks) db []).2)
        | none =>
          (.ok (chunks.length, (chunks.map (fun c => c.tokens)).sum),
            (batchLoop env fid provider (sliceBatches chunks) db []).1,
            (batchLoop env fid provider (sliceBatches chunks) db []).2)

/-- The `POST` handler of `src/unnamed/part_001`.  The success response
(lines 413-429) reports `Math.ceil(totalChunks / BATCH_SIZE)` processed
batches; `processingTimeMs` is wall-clock time and not modelled. -/
def postModel (env : Env E) (db0 : DbState E) : RunResult E :=
  match checkAdmission env db0 with
  | .alreadyProcessed =>
    { response :=
        { status := 200, message := "File already processed", stats := some ⟨0, 0, 0⟩ }
      db := db0
      calls := [] }
  | .reject m => handleCatch env m db0 []
  | .proceed fid provider row =>
    match runBody env provider fid row
        { db0 with file := some (markProcessingRow env row) } with
    | (.ok tct, db2, calls) =>
      { response :=
          { status := 200
            message := "Embed Successful"
            stats := some ⟨tct.1, tct.2, (tct.1 + (BATCH_SIZE - 1)) / BATCH_SIZE⟩ }
        db := { db2 with file := db2.file.map (finalizeSuccessRow env tct.2) }
        calls := calls }
    | (.error m, db2, calls) => handleCatch env m db2 calls

/-! ## PDF chunker: `processPdf` (src/lib/retrieval/processing/pdf.ts)

The tokenizer (`encode` of `gpt-tokenizer`) and the splitter
(`RecursiveCharacterTextSplitter` of `langchain`) are library collaborators,
not part of this repository's sources.  A text is therefore modelled by its
token sequence (`List τ`): `encode(s).length` becomes `List.length`, a
whitespace-only page is identified with the empty token sequence. -/

/-- Modelled from the spec: `RecursiveCharacterTextSplitter({ chunkSize:
CHUNK_SIZE, chunkOverlap: CHUNK_OVERLAP }).createDocuments([page])`, whose
implementation is missing from the sources.  Per spec §4.1 the splitter cuts
a segment into pieces of at most `maxTokens = CHUNK_SIZE` tokens, each piece
after the first overlapping the previous piece's tail by `overlapTokens =
CHUNK_OVERLAP` tokens. -/
def splitTokens (l : List τ) : List (List τ) :=
  if l.length ≤ CHUNK_SIZE then [l]
  else l.take CHUNK_SIZE :: splitTokens (l.drop (CHUNK_SIZE - CHUNK_OVERLAP))
termination_by l.length
decreasing_by
  simp only [List.length_drop, CHUNK_SIZE, CHUNK_OVERLAP]
  omega

/-- A chunk as emitted by `processPdf`: its content (as a token sequence)
and `tokens = encode(content).length`. -/
structure PdfChunk (τ : Type) where
  content : List τ
  tokens : Nat
deriving Repr, DecidableEq

/-- Function `processPdf` (pdf.ts, lines 7-59): pages are processed one by one, blank
pages are skipped, a page of at most `CHUNK_SIZE` tokens is emitted unchanged
as a single chunk, a larger page is handed to the splitter. -/
def processPdf (pages : List (List τ)) : List (PdfChunk τ) :=
  ((pages.filter (fun p => ¬ p.isEmpty)).map fun p =>
    if p.length ≤ CHUNK_SIZE then [PdfChunk.mk p p.length]
    else (splitTokens p).map fun c => PdfChunk.mk c c.length).flatten

/-! ## Client retry driver: `processFileInBackground`
(src/db/files.ts, lines 141-269)

`outcome k` is what attempt number `k+1` (the call made with `retryCount =
k`) does: the fetch resolves with an ok response, resolves with a non-ok
response, or throws (name and message of the error; an abort by the
per-attempt timeout throws an `AbortError`).  The driver's observable
behaviour is the list of attempts — each with its per-attempt deadline and
the backoff delay scheduled after it, if any — and the final toast. -/

inductive AttemptOutcome where
  | respOk
  | respErr (status : Nat) (message : String)
  | thrown (name message : String)

/-- Final user-facing report (the toast chosen at lines 172-184 and
232-267). -/
inductive FinalReport where
  | successToast
  | processingFailedToast (message : String)
  | timedOutToast
  | networkErrorToast
  | tokenLimitToast
  | genericFailureToast
deriving Repr, DecidableEq

structure AttemptRecord where
  retryCount : Nat
  deadlineMs : Nat
  delayAfterMs : Option Nat
deriving Repr, DecidableEq

def maxRetries : Nat := 3

def baseDelayMs : Nat := 2000

/-- Line 155: 10 minutes on the first attempt, 5 minutes on every retry. -/
def timeoutDuration (retryCount : Nat) : Nat :=
  if retryCount = 0 then 10 * 60 * 1000 else 5 * 60 * 1000

/-- Lines 204-210: retry only below `maxRetries` and only for the retryable
error classes. -/
def shouldRetry (retryCount : Nat) (name message : String) : Bool :=
  decide (retryCount < maxRetries) &&
    (name == "AbortError" || jsIncludes message "network" ||
      jsIncludes message "fetch" || jsIncludes message "ECONNRESET" ||
      jsIncludes message "ETIMEDOUT")

/-- Lines 232-267: classification of the final failure after retries are
exhausted (or for a non-retryable error). -/
def classifyFinal (name message : String) : FinalReport :=
  if name == "AbortError" then .timedOutToast
  else if jsIncludes message "network" || jsIncludes message "fetch" then
    .networkErrorToast
  else if jsIncludes message "token" || jsIncludes message "limit" then
    .tokenLimitToast
  else .genericFailureToast

/-- The recursion of `processFileInBackground(retryCount)`.  The fuel is
`maxRetries + 1 - retryCount`; recursion only happens under
`retryCount < maxRetries`, so the fuel never runs out when started at
`maxRetries + 1`. -/
def retryLoop (outcome : Nat → AttemptOutcome) :
    Nat → Nat → List AttemptRecord × FinalReport
  | _, 0 => ([], .genericFailureToast)
  | rc, fuel + 1 =>
    match outcome rc with
    | .respOk => ([⟨rc, timeoutDuration rc, none⟩], .successToast)
    | .respErr _ m => ([⟨rc, timeoutDuration rc, none⟩], .processingFailedToast m)
    | .thrown name msg =>
      if shouldRetry rc name msg then
        let rest := retryLoop outcome (rc + 1) fuel
        (⟨rc, timeoutDuration rc, some (baseDelayMs * 2 ^ rc)⟩ :: rest.1, rest.2)
      else
        ([⟨rc, timeoutDuration rc, none⟩], classifyFinal name msg)

/-- Entry `processFileInBackground()` as started at line 272 (`retryCount = 0`). -/
def processFileInBackground (outcome : Nat → AttemptOutcome) :
    List AttemptRecord × FinalReport :=
  retryLoop outcome 0 (maxRetries + 1)

/-! ## Concrete fixtures for counterexamples and witnesses -/

/-- A baseline environment: authorized caller, `"local"` provider, healthy
storage and extraction, every collaborator succeeding. -/
def envA : Env Nat :=
  { profile_user_id := "u1"
    use_azure_openai := false
    azureKeyPresent := false
    openaiKeyPresent := true
    checkApiKeyMsg := "OpenAI API Key not found"
    metadataErrMsg := "no rows"
    file_id := some "f1"
    embeddingsProvider := some "local"
    downloadError := none
    blobReadError := none
    bufferLen := 10
    extract := fun _ => .ok [⟨"hello", 5⟩]
    embed := fun s => s.length
    localEmbed := fun s => some s.length
    openaiCallError := none
    refetchFormDataOk := true
    nowStart := 1
    nowComplete := 2
    nowFail := 3 }

/-- A pending 100-byte `doc.txt` owned by the caller. -/
def rowA : FileRow :=
  { user_id := "u1"
    name := "doc.txt"
    size := 100
    tokens := none
    processing_status := .pending
    processing_error := none
    processing_started_at := none
    processing_completed_at := none }

/-- A pre-existing chunk row of the file (used by the idempotency claims). -/
def itemA : FileItemRow Nat :=
  { file_id := "f1"
    user_id := "u1"
    content := "old chunk"
    tokens := 7
    openai_embedding := none
    local_embedding := some 9 }

/-- The file of `rowA`, one byte over the 200 MB ceiling. -/
def rowBig : FileRow :=
  { rowA with size := 200 * 1024 * 1024 + 1 }

/-- An oversized file that already has a chunk row. -/
def dbBig : DbState Nat :=
  ⟨some rowBig, [itemA]⟩

/-- An already-chunked file within the size limit. -/
def dbChunky : DbState Nat :=
  ⟨some rowA, [itemA]⟩

/-- An already-chunked file with two stored chunk rows totalling 48 tokens. -/
def dbChunky2 : DbState Nat :=
  ⟨some rowA, [itemA, { itemA with content := "old chunk 2", tokens := 41 }]⟩

/-- A pending file with an unsupported extension. -/
def rowXyz : FileRow :=
  { rowA with name := "doc.xyz" }

def dbXyz : DbState Nat :=
  ⟨some rowXyz, []⟩

/-- A run where the storage download throws and the `catch` block's
form-data re-read fails too (its `finally`-less `try` swallows the
finalize). -/
def envC9 : Env Nat :=
  { envA with
    refetchFormDataOk := false
    downloadError := some "boom" }

/-- The property every emitted sub-batch actually satisfies: non-empty,
summed tokens within the per-item ceiling, and within the per-request
ceiling `MAX_BATCH_TOKENS` except for a singleton sub-batch holding one
chunk whose own token count lies in
`(MAX_BATCH_TOKENS, MAX_TOKENS_PER_REQUEST]`. -/
def goodBatch (b : List FileItemChunk) : Prop :=
  b ≠ [] ∧ subBatchTokens b ≤ MAX_TOKENS_PER_REQUEST ∧
    (subBatchTokens b ≤ MAX_BATCH_TOKENS ∨
      ∃ c, b = [c] ∧ MAX_BATCH_TOKENS < c.tokens ∧
        c.tokens ≤ MAX_TOKENS_PER_REQUEST)

/-- Loop invariant of `subBatchLoop`: the token counter mirrors the open
sub-batch, the open sub-batch is within bounds (or a lone over-`C_batch`
chunk), and every sub-batch sent so far is good. -/
def subBatchInv (st : SubBatchState E) : Prop :=
  st.currentSubBatchTokens = subBatchTokens st.currentSubBatch ∧
  (subBatchTokens st.currentSubBatch ≤ MAX_BATCH_TOKENS ∨
    ∃ c, st.currentSubBatch = [c] ∧ MAX_BATCH_TOKENS < c.tokens ∧
      c.tokens ≤ MAX_TOKENS_PER_REQUEST) ∧
  ∀ b ∈ st.sent, goodBatch b

end Ingest

namespace Ingest

/-! ## Shared helper lemmas -/

/-- Helper: `batchLoop` never touches the `files` row. -/
theorem batchLoop_file (env : Env E) (fid provider : String) :
    ∀ (slices : List (List FileItemChunk)) (db : DbState E) (calls : List (List String)),
      (batchLoop env fid provider slices db calls).1.file = db.file := by
  intro slices
  induction slices with
  | nil => intro db calls; rfl
  | cons s rest ih =>
    intro db calls
    by_cases h : provider = "openai"
    · subst h
      simp [batchLoop, ih]
    · simp only [batchLoop, if_neg h, ih]

/-- Helper: `runBody` never touches the `files` row. -/
theorem runBody_file (env : Env E) (provider fid : String) (row : FileRow)
    (db : DbState E) :
    (runBody env provider fid row db).2.1.file = db.file := by
  unfold runBody
  iterate 14 all_goals (first | rfl | split | simp [batchLoop_file] | skip)

/-- The error categorization never yields a 200 code. -/
theorem categorize_ne_200 (m : String) : (categorize m).1 ≠ 200 := by
  unfold categorize
  split_ifs <;> norm_num

/-- The error categorization yields 408 exactly for a message containing
`"timeout"`. -/
theorem categorize_408_iff (m : String) :
    (categorize m).1 = 408 ↔ jsIncludes m "timeout" = true := by
  unfold categorize
  split_ifs with h1 h2 h3 h4 h5 h6 <;> simp [h1]

/-- A `.proceed` admission implies a truthy `file_id` (needed by the
`catch`-block finalize). -/
theorem checkAdmission_proceed_truthy (env : Env E) (db : DbState E)
    (fid provider : String) (row : FileRow)
    (h : checkAdmission env db = .proceed fid provider row) :
    truthy env.file_id = true := by
  unfold checkAdmission at h
  split at h
  · exact absurd h (by simp)
  · next hp =>
    push_neg at hp
    simp [hp.1]

/-! ## Claim C1 -/

/-- C1: refuted — the Embedding Dispatcher does NOT keep positional
alignment.  On the two-chunk input `[("a", 1 token), ("b", 300001 tokens)]`
with provider `"openai"`, the first chunk is buffered in the open sub-batch,
the oversized second chunk pushes its `null` immediately, and the buffered
embedding is appended after it: the output is `[null, embed "a"]`, so
position 0 (a non-skipped chunk) holds `null` and position 1 (the skipped
chunk) holds the embedding of chunk 0.  The persistence step
(`batchEmbeddings[index]`) therefore stores chunk 0's embedding on the
oversized chunk's row. -/
theorem C1_positional_misalignment :
    (⟨"a", 1⟩ : FileItemChunk).tokens ≤ MAX_TOKENS_PER_REQUEST ∧
    MAX_TOKENS_PER_REQUEST < (⟨"b", 300001⟩ : FileItemChunk).tokens ∧
    processBatchEmbeddingsOpenai (fun s => s.length) [⟨"a", 1⟩, ⟨"b", 300001⟩] =
      ([none, some 1], [[⟨"a", 1⟩]]) ∧
    ((processBatchEmbeddingsOpenai (fun s => s.length)
      [⟨"a", 1⟩, ⟨"b", 300001⟩]).1.getD 0 none = none ∧
     (processBatchEmbeddingsOpenai (fun s => s.length)
      [⟨"a", 1⟩, ⟨"b", 300001⟩]).1.getD 1 none = some ("a".length)) := by
  decide

/-! ## Claim C2 -/

/-- C2: counterexample — a single chunk of 260000 tokens (within the
`MAX_TOKENS_PER_REQUEST = 300000` per-item ceiling) is packed alone into a
sub-batch whose summed token count exceeds `MAX_BATCH_TOKENS = 250000`,
because the flush condition requires a non-empty open sub-batch. -/
theorem C2_counterexample :
    ∃ b ∈ (processBatchEmbeddingsOpenai (fun s => s.length)
        [⟨"a", 260000⟩]).2,
      MAX_BATCH_TOKENS < subBatchTokens b := by
  exact ⟨[⟨"a", 260000⟩], by decide, by decide⟩

/-! ## Claim C6 -/

/-- C6: counterexample — the oversized chunk at position 1 of
`[("x", 2 tokens), ("y", 300005 tokens)]` does not receive a null embedding:
its output slot holds the embedding of chunk 0 (the null pushed at skip time
landed at position 0 instead). -/
theorem C6_counterexample :
    MAX_TOKENS_PER_REQUEST < (⟨"y", 300005⟩ : FileItemChunk).tokens ∧
    (processBatchEmbeddingsOpenai (fun s => s.length)
      [⟨"x", 2⟩, ⟨"y", 300005⟩]).1.getD 1 none = some 1 ∧
    (processBatchEmbeddingsOpenai (fun s => s.length)
      [⟨"x", 2⟩, ⟨"y", 300005⟩]).1.getD 1 none ≠ none := by
  decide

/-! ## Claim C3 -/

/-- C3: counterexample — a file that already has a chunk row but whose
declared size exceeds 200 MB does NOT get the benign "already processed"
response: the size check precedes the chunk-existence guard, so the request
fails with 413 and the failure finalize even mutates the file's status row
to `failed`. -/
theorem C3_counterexample :
    0 < dbBig.fileItems.length ∧
    (postModel envA dbBig).response.status = 413 ∧
    (postModel envA dbBig).response.message ≠ "File already processed" ∧
    (postModel envA dbBig).db.file.map (fun r => r.processing_status) =
      some .failed := by
  decide

/-- C3 (amended): when the invocation passes the admission checks that
precede the chunk-existence guard (present parameters, valid provider, file
found, owned by the caller, size ≤ 200 MB) and the file already has at least
one chunk row — i.e. the admission phase answers `alreadyProcessed` — the
handler returns HTTP 200 "File already processed" with zeroed statistics,
leaves the database state untouched, and makes no embedding-provider
call. -/
theorem C3_already_processed_no_side_effect (env : Env E) (db0 : DbState E)
    (h : checkAdmission env db0 = .alreadyProcessed) :
    postModel env db0 =
      { response :=
          { status := 200, message := "File already processed", stats := some ⟨0, 0, 0⟩ }
        db := db0
        calls := [] } := by
  simp [postModel, h]

theorem C3_already_processed_no_side_effect_witness :
    postModel envA dbChunky =
      { response :=
          { status := 200, message := "File already processed", stats := some ⟨0, 0, 0⟩ }
        db := dbChunky
        calls := [] } :=
  C3_already_processed_no_side_effect envA dbChunky (by decide)

/-! ## Claim C10 -/

/-- C10: the "File already processed" response always reports the constant
statistics `totalChunks = 0, totalTokens = 0, batchesProcessed = 0`,
whatever chunk rows are actually stored. -/
theorem C10_constant_zero_stats (env : Env E) (db0 : DbState E)
    (h : checkAdmission env db0 = .alreadyProcessed) :
    (postModel env db0).response.stats = some ⟨0, 0, 0⟩ ∧
    (postModel env db0).response.message = "File already processed" := by
  simp [postModel, h]

theorem C10_constant_zero_stats_witness :
    ((postModel envA dbChunky2).response.stats = some ⟨0, 0, 0⟩ ∧
      (postModel envA dbChunky2).response.message = "File already processed") ∧
    dbChunky2.fileItems.length = 2 ∧
    (dbChunky2.fileItems.map (fun r => r.tokens)).sum = 48 :=
  ⟨C10_constant_zero_stats envA dbChunky2 (by decide), by decide, by decide⟩

/-! ## Claim C5 -/

/-- C5: counterexample — a file named `doc.xyz` is rejected with the
catch-all 500 code (the message "Unsupported file type" matches no
category), not a 400-class code, and the rejection is not free of status
mutation: the row was already marked `processing` before extraction and the
failure finalize then sets it to `failed`. -/
theorem C5_counterexample :
    (postModel envA dbXyz).response.status = 500 ∧
    ¬ (400 ≤ (postModel envA dbXyz).response.status ∧
        (postModel envA dbXyz).response.status < 500) ∧
    (postModel envA dbXyz).db.file.map (fun r => r.processing_status) =
      some .failed ∧
    (postModel envA dbXyz).response.message = "Unsupported file type" := by
  decide

/-! ## Claim C8 -/

/-- C8: when every attempt throws an `AbortError` (the per-attempt timeout
firing), the Client Retry Driver makes exactly 4 attempts; the per-attempt
deadlines are 10 minutes then 5 minutes on every retry; the delay scheduled
before extra attempt `k` is `baseDelayMs * 2 ^ (k - 1)`, i.e. 2000 ms,
4000 ms, 8000 ms; and after exhausting retries it reports the final
timed-out failure toast. -/
theorem C8_backoff_schedule (outcome : Nat → AttemptOutcome) (msg : Nat → String)
    (h : outcome = fun k => .thrown "AbortError" (msg k)) :
    (processFileInBackground outcome).1.length = 4 ∧
    (processFileInBackground outcome).1.map (fun a => a.deadlineMs) =
      [10 * 60 * 1000, 5 * 60 * 1000, 5 * 60 * 1000, 5 * 60 * 1000] ∧
    (processFileInBackground outcome).1.map (fun a => a.delayAfterMs) =
      [some (baseDelayMs * 2 ^ 0), some (baseDelayMs * 2 ^ 1),
        some (baseDelayMs * 2 ^ 2), none] ∧
    (processFileInBackground outcome).1.map (fun a => a.delayAfterMs) =
      [some 2000, some 4000, some 8000, none] ∧
    (processFileInBackground outcome).2 = .timedOutToast := by
  subst h
  exact ⟨rfl, rfl, rfl, rfl, rfl⟩

theorem C8_backoff_schedule_witness :
    (processFileInBackground (fun _ => .thrown "AbortError" "aborted")).1.length = 4 ∧
    (processFileInBackground (fun _ => .thrown "AbortError" "aborted")).1.map
        (fun a => a.deadlineMs) =
      [10 * 60 * 1000, 5 * 60 * 1000, 5 * 60 * 1000, 5 * 60 * 1000] ∧
    (processFileInBackground (fun _ => .thrown "AbortError" "aborted")).1.map
        (fun a => a.delayAfterMs) =
      [some (baseDelayMs * 2 ^ 0), some (baseDelayMs * 2 ^ 1),
        some (baseDelayMs * 2 ^ 2), none] ∧
    (processFileInBackground (fun _ => .thrown "AbortError" "aborted")).1.map
        (fun a => a.delayAfterMs) =
      [some 2000, some 4000, some 8000, none] ∧
    (processFileInBackground (fun _ => .thrown "AbortError" "aborted")).2 =
      .timedOutToast :=
  C8_backoff_schedule (fun _ => .thrown "AbortError" "aborted") (fun _ => "aborted") rfl

/-! ## Sub-batch invariants (claims C2 and C6) -/

/-- Helper: `subBatchLoop` preserves `subBatchInv`. -/
theorem subBatchLoop_inv (embed : String → E) :
    ∀ (l : List FileItemChunk) (st : SubBatchState E),
      subBatchInv st → subBatchInv (subBatchLoop embed l st) := by
  intro l
  induction l with
  | nil => intro st h; simpa [subBatchLoop] using h
  | cons c rest ih =>
    intro st h
    obtain ⟨htok, hcur, hsent⟩ := h
    rw [subBatchLoop]
    split
    · -- oversized: only the embeddings array and skip counter change
      exact ih _ ⟨htok, hcur, hsent⟩
    · next hsmall =>
      have hle : c.tokens ≤ MAX_TOKENS_PER_REQUEST := Nat.le_of_not_lt hsmall
      split
      · next hcond =>
        -- flush, then open a fresh singleton sub-batch
        obtain ⟨hgt, hne⟩ := hcond
        apply ih
        refine ⟨by simp [subBatchTokens], ?_, ?_⟩
        · by_cases hc : c.tokens ≤ MAX_BATCH_TOKENS
          · left; simpa [subBatchTokens] using hc
          · right; exact ⟨c, rfl, Nat.lt_of_not_le hc, hle⟩
        · intro b hb
          simp only [List.mem_append, List.mem_singleton] at hb
          rcases hb with hb | hb
          · exact hsent b hb
          · subst hb
            refine ⟨hne, ?_, hcur⟩
            rcases hcur with hcur | ⟨d, hd, _, hdle⟩
            · calc subBatchTokens st.currentSubBatch ≤ MAX_BATCH_TOKENS := hcur
                _ ≤ MAX_TOKENS_PER_REQUEST := by
                    norm_num [MAX_BATCH_TOKENS, MAX_TOKENS_PER_REQUEST]
            · simpa [hd, subBatchTokens] using hdle
      · next hncond =>
        -- append to the open sub-batch
        push_neg at hncond
        apply ih
        refine ⟨by simp [subBatchTokens, htok], ?_, hsent⟩
        by_cases hA : MAX_BATCH_TOKENS < st.currentSubBatchTokens + c.tokens
        · have hcure : st.currentSubBatch = [] := hncond hA
          by_cases hc : c.tokens ≤ MAX_BATCH_TOKENS
          · left; simpa [hcure, subBatchTokens] using hc
          · right
            exact ⟨c, by simp [hcure], Nat.lt_of_not_le hc, hle⟩
        · left
          have : st.currentSubBatchTokens + c.tokens ≤ MAX_BATCH_TOKENS :=
            Nat.le_of_not_lt hA
          simpa [subBatchTokens, htok] using this

/-! ## Claim C2 (amended) -/

/-- C2 (amended): every sub-batch the greedy packer sends is non-empty and
its summed token count is at most `MAX_TOKENS_PER_REQUEST`; the claimed
bound `MAX_BATCH_TOKENS` holds except for a singleton sub-batch whose lone
chunk's own token count lies in `(MAX_BATCH_TOKENS,
MAX_TOKENS_PER_REQUEST]` (that chunk was admitted into an empty open
sub-batch, which the flush condition never evicts).  For an empty input no
sub-batch is emitted. -/
theorem C2_batch_token_bound (embed : String → E) (chunks : List FileItemChunk) :
    (processBatchEmbeddingsOpenai embed ([] : List FileItemChunk)).2 = [] ∧
    ∀ b ∈ (processBatchEmbeddingsOpenai embed chunks).2,
      b ≠ [] ∧ subBatchTokens b ≤ MAX_TOKENS_PER_REQUEST ∧
        (subBatchTokens b ≤ MAX_BATCH_TOKENS ∨
          ∃ c, b = [c] ∧ MAX_BATCH_TOKENS < c.tokens ∧
            c.tokens ≤ MAX_TOKENS_PER_REQUEST) := by
  constructor
  · rfl
  · intro b hb
    have hinv : subBatchInv (subBatchLoop embed chunks (initSubBatchState E)) :=
      subBatchLoop_inv embed chunks (initSubBatchState E)
        ⟨rfl, by simp [initSubBatchState, subBatchTokens], by simp [initSubBatchState]⟩
    obtain ⟨htok, hcur, hsent⟩ := hinv
    unfold processBatchEmbeddingsOpenai flushTrailing at hb
    split at hb
    · next hne =>
      simp only [List.mem_append, List.mem_singleton] at hb
      rcases hb with hb | hb
      · exact hsent b hb
      · subst hb
        refine ⟨hne, ?_, hcur⟩
        rcases hcur with hcur | ⟨d, hd, _, hdle⟩
        · calc subBatchTokens _ ≤ MAX_BATCH_TOKENS := hcur
            _ ≤ MAX_TOKENS_PER_REQUEST := by
                norm_num [MAX_BATCH_TOKENS, MAX_TOKENS_PER_REQUEST]
        · simpa [hd, subBatchTokens] using hdle
    · exact hsent b hb

theorem C2_batch_token_bound_witness :
    ((processBatchEmbeddingsOpenai (fun s => s.length)
        ([] : List FileItemChunk)).2 = [] ∧
      ([⟨"a", 260000⟩] ≠ ([] : List FileItemChunk) ∧
        subBatchTokens [⟨"a", 260000⟩] ≤ MAX_TOKENS_PER_REQUEST ∧
        (subBatchTokens [⟨"a", 260000⟩] ≤ MAX_BATCH_TOKENS ∨
          ∃ c, ([⟨"a", 260000⟩] : List FileItemChunk) = [c] ∧
            MAX_BATCH_TOKENS < c.tokens ∧
            c.tokens ≤ MAX_TOKENS_PER_REQUEST))) ∧
    [(⟨"a", 260000⟩ : FileItemChunk)] ∈
      (processBatchEmbeddingsOpenai (fun s => s.length) [⟨"a", 260000⟩]).2 :=
  ⟨⟨(C2_batch_token_bound (fun s => s.length) [⟨"a", 260000⟩]).1,
    (C2_batch_token_bound (fun s => s.length) [⟨"a", 260000⟩]).2
      [⟨"a", 260000⟩] (by decide)⟩,
    by decide⟩

/-- Every chunk inside the open sub-batch or a sent sub-batch passed the
per-item ceiling check. -/
theorem subBatchLoop_small (embed : String → E) :
    ∀ (l : List FileItemChunk) (st : SubBatchState E),
      (∀ c ∈ st.currentSubBatch, c.tokens ≤ MAX_TOKENS_PER_REQUEST) →
      (∀ b ∈ st.sent, ∀ c ∈ b, c.tokens ≤ MAX_TOKENS_PER_REQUEST) →
      (∀ c ∈ (subBatchLoop embed l st).currentSubBatch,
        c.tokens ≤ MAX_TOKENS_PER_REQUEST) ∧
      (∀ b ∈ (subBatchLoop embed l st).sent, ∀ c ∈ b,
        c.tokens ≤ MAX_TOKENS_PER_REQUEST) := by
  intro l
  induction l with
  | nil => intro st h1 h2; exact ⟨h1, h2⟩
  | cons c rest ih =>
    intro st h1 h2
    rw [subBatchLoop]
    split
    · exact ih _ h1 h2
    · next hsmall =>
      have hle : c.tokens ≤ MAX_TOKENS_PER_REQUEST := Nat.le_of_not_lt hsmall
      split
      · refine ih _ ?_ ?_
        · intro d hd
          simp only [List.mem_singleton] at hd
          subst hd; exact hle
        · intro b hb
          simp only [List.mem_append, List.mem_singleton] at hb
          rcases hb with hb | hb
          · exact h2 b hb
          · subst hb; exact h1
      · refine ih _ ?_ h2
        intro d hd
        simp only [List.mem_append, List.mem_singleton] at hd
        rcases hd with hd | hd
        · exact h1 d hd
        · subst hd; exact hle

/-- One-step unfolding: skip of an oversized chunk. -/
theorem subBatchLoop_cons_skip (embed : String → E) {c : FileItemChunk}
    (hc : MAX_TOKENS_PER_REQUEST < c.tokens) (rest : List FileItemChunk)
    (st : SubBatchState E) :
    subBatchLoop embed (c :: rest) st =
      subBatchLoop embed rest
        { st with
          batchEmbeddings := st.batchEmbeddings ++ [none]
          skippedChunks := st.skippedChunks + 1 } := by
  rw [subBatchLoop, if_pos hc]

/-- One-step unfolding: flush of the open sub-batch. -/
theorem subBatchLoop_cons_flush (embed : String → E) {c : FileItemChunk}
    (rest : List FileItemChunk) (st : SubBatchState E)
    (hc : ¬ MAX_TOKENS_PER_REQUEST < c.tokens)
    (hf : MAX_BATCH_TOKENS < st.currentSubBatchTokens + c.tokens ∧
      st.currentSubBatch ≠ []) :
    subBatchLoop embed (c :: rest) st =
      subBatchLoop embed rest
        { batchEmbeddings :=
            st.batchEmbeddings ++ st.currentSubBatch.map (fun d => some (embed d.content))
          currentSubBatch := [c]
          currentSubBatchTokens := c.tokens
          skippedChunks := st.skippedChunks
          sent := st.sent ++ [st.currentSubBatch] } := by
  rw [subBatchLoop, if_neg hc, if_pos hf]

/-- One-step unfolding: append to the open sub-batch. -/
theorem subBatchLoop_cons_app (embed : String → E) {c : FileItemChunk}
    (rest : List FileItemChunk) (st : SubBatchState E)
    (hc : ¬ MAX_TOKENS_PER_REQUEST < c.tokens)
    (hf : ¬ (MAX_BATCH_TOKENS < st.currentSubBatchTokens + c.tokens ∧
      st.currentSubBatch ≠ [])) :
    subBatchLoop embed (c :: rest) st =
      subBatchLoop embed rest
        { st with
          currentSubBatch := st.currentSubBatch ++ [c]
          currentSubBatchTokens := st.currentSubBatchTokens + c.tokens } := by
  rw [subBatchLoop, if_neg hc, if_neg hf]

/-- Removing the oversized chunks from the input leaves the sub-batching
state (open sub-batch, token counter, sent sub-batches) unchanged: a skipped
chunk only touches the output array and the skip counter. -/
theorem subBatchLoop_filter_core (embed : String → E) :
    ∀ (l : List FileItemChunk) (acc acc2 : List (Option E))
      (cur : List FileItemChunk) (tok skip skip2 : Nat)
      (sent : List (List FileItemChunk)),
      ((subBatchLoop embed (l.filter fun c => c.tokens ≤ MAX_TOKENS_PER_REQUEST)
          ⟨acc2, cur, tok, skip2, sent⟩).currentSubBatch =
        (subBatchLoop embed l ⟨acc, cur, tok, skip, sent⟩).currentSubBatch) ∧
      ((subBatchLoop embed (l.filter fun c => c.tokens ≤ MAX_TOKENS_PER_REQUEST)
          ⟨acc2, cur, tok, skip2, sent⟩).currentSubBatchTokens =
        (subBatchLoop embed l ⟨acc, cur, tok, skip, sent⟩).currentSubBatchTokens) ∧
      ((subBatchLoop embed (l.filter fun c => c.tokens ≤ MAX_TOKENS_PER_REQUEST)
          ⟨acc2, cur, tok, skip2, sent⟩).sent =
        (subBatchLoop embed l ⟨acc, cur, tok, skip, sent⟩).sent) := by
  intro l
  induction l with
  | nil => intro acc acc2 cur tok skip skip2 sent; exact ⟨rfl, rfl, rfl⟩
  | cons c rest ih =>
    intro acc acc2 cur tok skip skip2 sent
    by_cases hc : MAX_TOKENS_PER_REQUEST < c.tokens
    · have hnle : ¬ (c.tokens ≤ MAX_TOKENS_PER_REQUEST) := Nat.not_le.mpr hc
      rw [List.filter_cons_of_neg (by simpa using hnle),
        subBatchLoop_cons_skip embed hc]
      exact ih (acc ++ [none]) acc2 cur tok (skip + 1) skip2 sent
    · have hle : c.tokens ≤ MAX_TOKENS_PER_REQUEST := Nat.le_of_not_lt hc
      rw [List.filter_cons_of_pos (by simpa using hle)]
      by_cases hf : MAX_BATCH_TOKENS < tok + c.tokens ∧ cur ≠ []
      · rw [subBatchLoop_cons_flush embed _ _ hc hf,
          subBatchLoop_cons_flush embed _ _ hc hf]
        exact ih _ _ _ _ _ _ _
      · rw [subBatchLoop_cons_app embed _ _ hc hf,
          subBatchLoop_cons_app embed _ _ hc hf]
        exact ih _ _ _ _ _ _ _

/-- The `null` entries of the output array are exactly one per oversized
chunk. -/
theorem subBatchLoop_none_countP (embed : String → E) :
    ∀ (l : List FileItemChunk) (st : SubBatchState E),
      ((subBatchLoop embed l st).batchEmbeddings.countP fun o => o.isNone) =
        (st.batchEmbeddings.countP fun o => o.isNone) +
          (l.filter fun c => MAX_TOKENS_PER_REQUEST < c.tokens).length := by
  intro l
  induction l with
  | nil => intro st; simp [subBatchLoop]
  | cons c rest ih =>
    intro st
    rw [subBatchLoop]
    split
    · next hc =>
      rw [List.filter_cons_of_pos (by simpa using hc)]
      rw [ih]
      simp [List.countP_append]
      omega
    · next hc =>
      rw [List.filter_cons_of_neg (by simpa using hc)]
      split
      · rw [ih]
        simp [List.countP_append, List.countP_map, Function.comp_def]
      · exact ih _

/-! ## Claim C6 (amended) -/

/-- C6 (amended): a chunk whose token count exceeds `MAX_TOKENS_PER_REQUEST`
is included in no sub-batch sent to the provider, and the sub-batches sent
are exactly those that would be sent were the oversized chunks absent, so
all other chunks' sub-batch memberships are unaffected.  The dispatcher
appends one `null` output entry per oversized chunk at the moment it is
skipped — but (per C1) not necessarily at the oversized chunk's own
position. -/
theorem C6_oversized_isolation (embed : String → E) (chunks : List FileItemChunk) :
    (∀ b ∈ (processBatchEmbeddingsOpenai embed chunks).2,
      ∀ c ∈ b, c.tokens ≤ MAX_TOKENS_PER_REQUEST) ∧
    (processBatchEmbeddingsOpenai embed chunks).2 =
      (processBatchEmbeddingsOpenai embed
        (chunks.filter fun c => c.tokens ≤ MAX_TOKENS_PER_REQUEST)).2 ∧
    ((processBatchEmbeddingsOpenai embed chunks).1.countP fun o => o.isNone) =
      (chunks.filter fun c => MAX_TOKENS_PER_REQUEST < c.tokens).length := by
  refine ⟨?_, ?_, ?_⟩
  · intro b hb c hc
    have hsmall := subBatchLoop_small embed chunks (initSubBatchState E)
      (by simp [initSubBatchState]) (by simp [initSubBatchState])
    unfold processBatchEmbeddingsOpenai flushTrailing at hb
    split at hb
    · simp only [List.mem_append, List.mem_singleton] at hb
      rcases hb with hb | hb
      · exact hsmall.2 b hb c hc
      · subst hb; exact hsmall.1 c hc
    · exact hsmall.2 b hb c hc
  · have hcore := subBatchLoop_filter_core embed chunks [] [] [] 0 0 0 []
    unfold processBatchEmbeddingsOpenai flushTrailing
    rw [initSubBatchState]
    rw [hcore.1, hcore.2.2]
    split <;> rfl
  · have hcount := subBatchLoop_none_countP embed chunks (initSubBatchState E)
    unfold processBatchEmbeddingsOpenai flushTrailing
    split
    · simp only [List.countP_append, List.countP_map, Function.comp_def]
      simp only [initSubBatchState] at hcount
      simpa using hcount
    · simp only [initSubBatchState] at hcount
      simpa using hcount

theorem C6_oversized_isolation_witness :
    (⟨"x", 2⟩ : FileItemChunk).tokens ≤ MAX_TOKENS_PER_REQUEST ∧
    (processBatchEmbeddingsOpenai (fun s => s.length)
        [⟨"x", 2⟩, ⟨"y", 300005⟩]).2 =
      (processBatchEmbeddingsOpenai (fun s => s.length)
        (([⟨"x", 2⟩, ⟨"y", 300005⟩] : List FileItemChunk).filter
          fun c => c.tokens ≤ MAX_TOKENS_PER_REQUEST)).2 ∧
    ((processBatchEmbeddingsOpenai (fun s => s.length)
        [⟨"x", 2⟩, ⟨"y", 300005⟩]).1.countP fun o => o.isNone) =
      (([⟨"x", 2⟩, ⟨"y", 300005⟩] : List FileItemChunk).filter
        fun c => MAX_TOKENS_PER_REQUEST < c.tokens).length :=
  ⟨(C6_oversized_isolation (fun s => s.length) [⟨"x", 2⟩, ⟨"y", 300005⟩]).1
      [⟨"x", 2⟩] (by decide) ⟨"x", 2⟩ (by decide),
    (C6_oversized_isolation (fun s => s.length) [⟨"x", 2⟩, ⟨"y", 300005⟩]).2.1,
    (C6_oversized_isolation (fun s => s.length) [⟨"x", 2⟩, ⟨"y", 300005⟩]).2.2⟩

/-! ## Claim C4 -/

/-- C4: state-machine coverage and error-field invariant.  For a run that is
admitted (so the job actually claims the file, starting from `pending`) and
whose failure finalize is able to re-read the request body: a successful run
(HTTP 200) ends with status `completed`, a non-null token total and null
`processing_error`; a failing run ends with non-null `processing_error` and
status `timeout` exactly when the error message contains `"timeout"` (the
deadline-expiry class, reported 408) and `failed` otherwise; and
`processing_error` is non-null only when the status is `failed` or
`timeout`. -/
theorem C4_state_machine (env : Env E) (db0 : DbState E)
    (fid provider : String) (row : FileRow)
    (hAdm : checkAdmission env db0 = .proceed fid provider row)
    (_hpend : row.processing_status = .pending)
    (hRefetch : env.refetchFormDataOk = true) :
    ∃ row2, (postModel env db0).db.file = some row2 ∧
      ((postModel env db0).response.status = 200 →
        row2.processing_status = .completed ∧ row2.tokens.isSome = true ∧
          row2.processing_error = none) ∧
      ((postModel env db0).response.status ≠ 200 →
        row2.processing_error.isSome = true ∧
          (row2.processing_status = .timeout ∨ row2.processing_status = .failed) ∧
          (row2.processing_status = .timeout ↔
            (postModel env db0).response.status = 408)) ∧
      (row2.processing_error.isSome = true →
        row2.processing_status = .failed ∨ row2.processing_status = .timeout) := by
  have htr := checkAdmission_proceed_truthy env db0 fid provider row hAdm
  rcases hrb : runBody env provider fid row
      { db0 with file := some (markProcessingRow env row) } with ⟨res, db2, calls⟩
  have hfile : db2.file = some (markProcessingRow env row) := by
    have hp := runBody_file env provider fid row
      { db0 with file := some (markProcessingRow env row) }
    rw [hrb] at hp
    simpa using hp
  cases res with
  | ok tct =>
    refine ⟨finalizeSuccessRow env tct.2 (markProcessingRow env row), ?_, ?_, ?_, ?_⟩
    · simp [postModel, hAdm, hrb, hfile]
    · intro _
      simp [finalizeSuccessRow]
    · intro hne
      exact absurd (by simp [postModel, hAdm, hrb]) hne
    · intro habs
      simp [finalizeSuccessRow] at habs
  | error m =>
    refine ⟨failRow env m (markProcessingRow env row), ?_, ?_, ?_, ?_⟩
    · simp [postModel, hAdm, hrb, handleCatch, hRefetch, htr, hfile]
    · intro h200
      have : (categorize m).1 = 200 := by
        simpa [postModel, hAdm, hrb, handleCatch] using h200
      exact absurd this (categorize_ne_200 m)
    · intro _
      refine ⟨by simp [failRow], ?_, ?_⟩
      · by_cases ht : jsIncludes m "timeout" = true
        · left; simp [failRow, ht]
        · right; simp [failRow, ht]
      · have hresp : (postModel env db0).response.status = (categorize m).1 := by
          simp [postModel, hAdm, hrb, handleCatch]
        rw [hresp]
        constructor
        · intro hto
          have ht : jsIncludes m "timeout" = true := by
            by_contra hn
            simp [failRow, hn] at hto
          exact (categorize_408_iff m).mpr ht
        · intro h408
          have ht := (categorize_408_iff m).mp h408
          simp [failRow, ht]
    · intro _
      by_cases ht : jsIncludes m "timeout" = true
      · right; simp [failRow, ht]
      · left; simp [failRow, ht]

theorem C4_state_machine_witness :
    checkAdmission envA ⟨some rowA, []⟩ = .proceed "f1" "local" rowA ∧
    rowA.processing_status = .pending ∧
    envA.refetchFormDataOk = true ∧
    (∃ row2, (postModel envA ⟨some rowA, []⟩).db.file = some row2 ∧
      ((postModel envA ⟨some rowA, []⟩).response.status = 200 →
        row2.processing_status = .completed ∧ row2.tokens.isSome = true ∧
          row2.processing_error = none) ∧
      ((postModel envA ⟨some rowA, []⟩).response.status ≠ 200 →
        row2.processing_error.isSome = true ∧
          (row2.processing_status = .timeout ∨ row2.processing_status = .failed) ∧
          (row2.processing_status = .timeout ↔
            (postModel envA ⟨some rowA, []⟩).response.status = 408)) ∧
      (row2.processing_error.isSome = true →
        row2.processing_status = .failed ∨ row2.processing_status = .timeout)) :=
  ⟨by decide, by decide, by decide,
    C4_state_machine envA ⟨some rowA, []⟩ "f1" "local" rowA (by decide) (by decide) (by decide)⟩

/-! ## Claim C9 -/

/-- C9: best-effort failure finalize.  When an admitted run fails after the
`processing` mark and the failure-path status update cannot run (the
form-data re-read it depends on throws), the handler still returns the
response categorized from the original error message, and the `files` row
is left exactly as the mark-processing write put it — status still
`processing`. -/
theorem C9_best_effort_finalize (env : Env E) (db0 : DbState E)
    (fid provider : String) (row : FileRow) (m : String)
    (hAdm : checkAdmission env db0 = .proceed fid provider row)
    (hRefetch : env.refetchFormDataOk = false)
    (hRun : (runBody env provider fid row
      { db0 with file := some (markProcessingRow env row) }).1 = .error m) :
    (postModel env db0).response.status = (categorize m).1 ∧
    (postModel env db0).response.message = (categorize m).2 ∧
    (postModel env db0).db.file = some (markProcessingRow env row) ∧
    (markProcessingRow env row).processing_status = .processing := by
  rcases hrb : runBody env provider fid row
      { db0 with file := some (markProcessingRow env row) } with ⟨res, db2, calls⟩
  rw [hrb] at hRun
  simp only at hRun
  subst hRun
  have hfile : db2.file = some (markProcessingRow env row) := by
    have hp := runBody_file env provider fid row
      { db0 with file := some (markProcessingRow env row) }
    rw [hrb] at hp
    simpa using hp
  refine ⟨?_, ?_, ?_, rfl⟩
  · simp [postModel, hAdm, hrb, handleCatch]
  · simp [postModel, hAdm, hrb, handleCatch]
  · simp [postModel, hAdm, hrb, handleCatch, hRefetch, hfile]

theorem C9_best_effort_finalize_witness :
    checkAdmission envC9 ⟨some rowA, []⟩ = .proceed "f1" "local" rowA ∧
    envC9.refetchFormDataOk = false ∧
    (runBody envC9 "local" "f1" rowA
      ⟨some (markProcessingRow envC9 rowA), []⟩).1 =
        .error "Failed to retrieve file from storage: boom" ∧
    ((postModel envC9 ⟨some rowA, []⟩).response.status =
        (categorize "Failed to retrieve file from storage: boom").1 ∧
      (postModel envC9 ⟨some rowA, []⟩).response.message =
        (categorize "Failed to retrieve file from storage: boom").2 ∧
      (postModel envC9 ⟨some rowA, []⟩).db.file =
        some (markProcessingRow envC9 rowA) ∧
      (markProcessingRow envC9 rowA).processing_status = .processing) :=
  ⟨by decide, by decide, rfl,
    C9_best_effort_finalize envC9 ⟨some rowA, []⟩ "f1" "local" rowA
      "Failed to retrieve file from storage: boom" (by decide) (by decide) rfl⟩

/-! ## Claim C5 (amended) -/

/-- C5 (amended): an unsupported extension or an extraction that yields zero
chunks aborts the run before any chunk row is written and before any
provider call — but not before the status mutation: the row was already
marked `processing`, the response carries the catch-all 500 code (neither
"Unsupported file type" nor "File could not be processed or is empty"
matches a 4xx category), and when the failure finalize succeeds the status
ends `failed` with the error recorded. -/
theorem C5_clean_reject_500 (env : Env E) (db0 : DbState E)
    (fid provider : String) (row : FileRow)
    (hAdm : checkAdmission env db0 = .proceed fid provider row)
    (hDl : env.downloadError = none)
    (hBlob : env.blobReadError = none)
    (hBuf : env.bufferLen ≠ 0)
    (hExt : extensionOf row.name ≠ "")
    (hKey : ¬ (provider = "openai" ∧
      (if env.use_azure_openai then ¬ env.azureKeyPresent else ¬ env.openaiKeyPresent)))
    (hCase : ¬ extensionOf row.name ∈ ["csv", "json", "md", "pdf", "txt"] ∨
      env.extract (extensionOf row.name) = .ok []) :
    (postModel env db0).response.status = 500 ∧
    ((postModel env db0).response.message = "Unsupported file type" ∨
      (postModel env db0).response.message =
        "File could not be processed or is empty") ∧
    (postModel env db0).db.fileItems = db0.fileItems ∧
    (postModel env db0).calls = [] ∧
    (postModel env db0).db.file.map (fun r => r.processing_status) =
      some (if env.refetchFormDataOk ∧ truthy env.file_id then
        ProcStatus.failed else ProcStatus.processing) := by
  by_cases hsupp : extensionOf row.name ∈ ["csv", "json", "md", "pdf", "txt"]
  · have hok : env.extract (extensionOf row.name) = .ok [] := by
      rcases hCase with hCase | hCase
      · exact absurd hsupp hCase
      · exact hCase
    have hrun : runBody env provider fid row
        { db0 with file := some (markProcessingRow env row) } =
        (.error "File could not be processed or is empty",
          { db0 with file := some (markProcessingRow env row) }, []) := by
      unfold runBody
      simp only [hDl, hBlob]
      rw [if_neg hBuf, if_neg hExt, if_neg hKey, if_neg (not_not_intro hsupp), hok]
      simp
    have hcat : categorize "File could not be processed or is empty" =
        (500, "File could not be processed or is empty") := by decide
    have hfr : jsIncludes "File could not be processed or is empty" "timeout" = false := by
      decide
    have hpost : postModel env db0 =
        handleCatch env "File could not be processed or is empty"
          { db0 with file := some (markProcessingRow env row) } [] := by
      simp [postModel, hAdm, hrun]
    rw [hpost]
    refine ⟨?_, .inr ?_, ?_, ?_, ?_⟩
    · simp [handleCatch, hcat]
    · simp [handleCatch, hcat]
    · by_cases hrt : env.refetchFormDataOk ∧ truthy env.file_id <;>
        simp [handleCatch, hrt]
    · simp [handleCatch]
    · by_cases hrt : env.refetchFormDataOk ∧ truthy env.file_id <;>
        simp [handleCatch, hrt, failRow, hfr, markProcessingRow]
  · have hrun : runBody env provider fid row
        { db0 with file := some (markProcessingRow env row) } =
        (.error "Unsupported file type",
          { db0 with file := some (markProcessingRow env row) }, []) := by
      unfold runBody
      simp only [hDl, hBlob]
      rw [if_neg hBuf, if_neg hExt, if_neg hKey, if_pos hsupp]
    have hcat : categorize "Unsupported file type" =
        (500, "Unsupported file type") := by decide
    have hfr : jsIncludes "Unsupported file type" "timeout" = false := by decide
    have hpost : postModel env db0 =
        handleCatch env "Unsupported file type"
          { db0 with file := some (markProcessingRow env row) } [] := by
      simp [postModel, hAdm, hrun]
    rw [hpost]
    refine ⟨?_, .inl ?_, ?_, ?_, ?_⟩
    · simp [handleCatch, hcat]
    · simp [handleCatch, hcat]
    · by_cases hrt : env.refetchFormDataOk ∧ truthy env.file_id <;>
        simp [handleCatch, hrt]
    · simp [handleCatch]
    · by_cases hrt : env.refetchFormDataOk ∧ truthy env.file_id <;>
        simp [handleCatch, hrt, failRow, hfr, markProcessingRow]

theorem C5_clean_reject_500_witness :
    checkAdmission envA dbXyz = .proceed "f1" "local" rowXyz ∧
    extensionOf rowXyz.name = "xyz" ∧
    ((postModel envA dbXyz).response.status = 500 ∧
      ((postModel envA dbXyz).response.message = "Unsupported file type" ∨
        (postModel envA dbXyz).response.message =
          "File could not be processed or is empty") ∧
      (postModel envA dbXyz).db.fileItems = dbXyz.fileItems ∧
      (postModel envA dbXyz).calls = [] ∧
      (postModel envA dbXyz).db.file.map (fun r => r.processing_status) =
        some (if envA.refetchFormDataOk ∧ truthy envA.file_id then
          ProcStatus.failed else ProcStatus.processing)) :=
  ⟨by decide, by decide,
    C5_clean_reject_500 envA dbXyz "f1" "local" rowXyz (by decide) (by decide)
      (by decide) (by decide) (by decide) (by decide) (.inl (by decide))⟩

/-! ## Claim C7: the chunker -/

theorem splitTokens_eq {τ : Type} (l : List τ) :
    splitTokens l =
      if l.length ≤ CHUNK_SIZE then [l]
      else l.take CHUNK_SIZE :: splitTokens (l.drop (CHUNK_SIZE - CHUNK_OVERLAP)) := by
  rw [splitTokens]

/-- Every piece the splitter emits is within the chunk-size bound
(auxiliary induction on a length bound). -/
theorem splitTokens_le_aux {τ : Type} :
    ∀ (n : Nat) (l : List τ), l.length ≤ n →
      ∀ c ∈ splitTokens l, c.length ≤ CHUNK_SIZE := by
  intro n
  induction n with
  | zero =>
    intro l hl c hc
    have h0 : l.length ≤ CHUNK_SIZE := by
      have : CHUNK_SIZE = 2000 := rfl
      omega
    rw [splitTokens_eq, if_pos h0] at hc
    simp at hc
    subst hc
    exact h0
  | succ n ih =>
    intro l hl c hc
    rw [splitTokens_eq] at hc
    by_cases h : l.length ≤ CHUNK_SIZE
    · rw [if_pos h] at hc
      simp at hc
      subst hc
      exact h
    · rw [if_neg h] at hc
      rcases List.mem_cons.mp hc with hc | hc
      · subst hc
        simp [List.length_take]
      · refine ih (l.drop (CHUNK_SIZE - CHUNK_OVERLAP)) ?_ c hc
        simp only [List.length_drop]
        have h1 : CHUNK_SIZE = 2000 := rfl
        have h2 : CHUNK_OVERLAP = 200 := rfl
        omega

theorem splitTokens_le {τ : Type} (l : List τ) :
    ∀ c ∈ splitTokens l, c.length ≤ CHUNK_SIZE :=
  splitTokens_le_aux l.length l le_rfl

/-- The splitter's first piece is the `CHUNK_SIZE`-token prefix of the
segment. -/
theorem splitTokens_head {τ : Type} (l : List τ) :
    ∃ rest, splitTokens l = l.take CHUNK_SIZE :: rest := by
  rw [splitTokens_eq]
  by_cases h : l.length ≤ CHUNK_SIZE
  · rw [if_pos h]
    exact ⟨[], by rw [List.take_of_length_le h]⟩
  · rw [if_neg h]
    exact ⟨_, rfl⟩

/-- Consecutive splitter pieces overlap by exactly `CHUNK_OVERLAP` tokens:
each piece after the first starts with the previous piece's
`CHUNK_OVERLAP`-token tail. -/
theorem splitTokens_chain_aux {τ : Type} :
    ∀ (n : Nat) (l : List τ), l.length ≤ n →
      List.Chain'
        (fun a b => b.take CHUNK_OVERLAP = a.drop (a.length - CHUNK_OVERLAP))
        (splitTokens l) := by
  intro n
  induction n with
  | zero =>
    intro l hl
    have h0 : l.length ≤ CHUNK_SIZE := by
      have : CHUNK_SIZE = 2000 := rfl
      omega
    rw [splitTokens_eq, if_pos h0]
    exact List.chain'_singleton l
  | succ n ih =>
    intro l hl
    rw [splitTokens_eq]
    by_cases h : l.length ≤ CHUNK_SIZE
    · rw [if_pos h]
      exact List.chain'_singleton l
    · rw [if_neg h]
      have h1 : CHUNK_SIZE = 2000 := rfl
      have h2 : CHUNK_OVERLAP = 200 := rfl
      refine List.chain'_cons'.mpr ⟨?_, ?_⟩
      · intro y hy
        obtain ⟨rest, hsp⟩ := splitTokens_head (l.drop (CHUNK_SIZE - CHUNK_OVERLAP))
        rw [hsp] at hy
        simp only [List.head?_cons, Option.mem_def, Option.some.injEq] at hy
        subst hy
        have hlen : (l.take CHUNK_SIZE).length = CHUNK_SIZE := by
          simp [List.length_take]
          omega
        rw [hlen, List.take_take, List.take_drop]
        have hfix : CHUNK_SIZE - CHUNK_OVERLAP + (CHUNK_OVERLAP ⊓ CHUNK_SIZE) =
            CHUNK_SIZE := by omega
        rw [hfix]
      · refine ih (l.drop (CHUNK_SIZE - CHUNK_OVERLAP)) ?_
        simp only [List.length_drop]
        omega

/-- A non-blank page within the chunk-size bound is emitted unchanged as one
single chunk. -/
theorem processPdf_single_page {τ : Type} (p : List τ) (hne : p ≠ [])
    (hle : p.length ≤ CHUNK_SIZE) :
    processPdf [p] = [⟨p, p.length⟩] := by
  simp [processPdf, hne, hle]

/-- A non-blank page over the bound contributes exactly the splitter's
pieces, in order. -/
theorem processPdf_split_page {τ : Type} (p : List τ) (hne : p ≠ [])
    (hgt : ¬ p.length ≤ CHUNK_SIZE) :
    processPdf [p] = (splitTokens p).map fun c => PdfChunk.mk c c.length := by
  simp [processPdf, hne, hgt]

/-- C7: every chunk `processPdf` emits has `tokens ≤ CHUNK_SIZE`; a
non-blank page of at most `CHUNK_SIZE` tokens is emitted unchanged as a
single chunk; a larger page contributes the splitter's pieces, whose
consecutive chunks overlap by exactly `CHUNK_OVERLAP` tokens (the next
chunk's `CHUNK_OVERLAP`-token prefix is the previous chunk's tail). -/
theorem C7_chunk_token_bound {τ : Type} (pages : List (List τ)) :
    (∀ c ∈ processPdf pages, c.tokens ≤ CHUNK_SIZE) ∧
    (∀ p : List τ, p ≠ [] → p.length ≤ CHUNK_SIZE →
      processPdf [p] = [⟨p, p.length⟩]) ∧
    (∀ p : List τ, p ≠ [] → ¬ p.length ≤ CHUNK_SIZE →
      processPdf [p] = (splitTokens p).map fun c => PdfChunk.mk c c.length) ∧
    (∀ p : List τ,
      List.Chain'
        (fun a b => b.take CHUNK_OVERLAP = a.drop (a.length - CHUNK_OVERLAP))
        (splitTokens p)) := by
  refine ⟨?_, ?_, ?_, ?_⟩
  · intro c hc
    unfold processPdf at hc
    simp only [List.mem_flatten, List.mem_map, List.mem_filter] at hc
    obtain ⟨bucket, ⟨p, ⟨hp, hpne⟩, hbucket⟩, hcb⟩ := hc
    subst hbucket
    by_cases h : p.length ≤ CHUNK_SIZE
    · rw [if_pos h] at hcb
      simp at hcb
      subst hcb
      exact h
    · rw [if_neg h] at hcb
      simp only [List.mem_map] at hcb
      obtain ⟨seg, hseg, hcseg⟩ := hcb
      subst hcseg
      exact splitTokens_le p seg hseg
  · intro p hne hle
    exact processPdf_single_page p hne hle
  · intro p hne hgt
    exact processPdf_split_page p hne hgt
  · intro p
    exact splitTokens_chain_aux p.length p le_rfl

theorem C7_chunk_token_bound_witness :
    (([0, 1, 2] : List Nat) ≠ [] ∧ ([0, 1, 2] : List Nat).length ≤ CHUNK_SIZE ∧
      processPdf [[0, 1, 2]] = [⟨([0, 1, 2] : List Nat), 3⟩]) ∧
    (⟨([0, 1, 2] : List Nat), 3⟩ : PdfChunk Nat) ∈ processPdf [[0, 1, 2]] ∧
    (⟨([0, 1, 2] : List Nat), 3⟩ : PdfChunk Nat).tokens ≤ CHUNK_SIZE :=
  ⟨⟨by decide, by decide,
      (C7_chunk_token_bound [[0, 1, 2]]).2.1 [0, 1, 2] (by decide) (by decide)⟩,
    by decide,
    (C7_chunk_token_bound [[(0 : Nat), 1, 2]]).1 ⟨[0, 1, 2], 3⟩ (by decide)⟩

end Ingest
